import Mathlib

/-!
Pigeon IMU status interpretation.

A shallow embedding of the decision logic of `src/cpp/src/Sensors/PigeonIMU.cpp`:
`PigeonIMU::GetGeneralStatus`, `PigeonIMU::GetFusedHeading(FusionStatus &)`, the two
`PigeonIMU::ToString` overloads, `PigeonIMU::GetFaults` and `PigeonIMU::GetStickyFaults`.

Modelling conventions.

* C++ `int` values are `Int`; a C++ `double` is a `Float` that is only passed through.
* An enumeration value is the integer it holds.  The enumerator constants are declared in
  `PigeonIMU.h`; the functions below take them as the parameter `E : EnumValues`.
* The answer of a `c_PigeonIMU_*` transport call (its out-parameters and its return value)
  is a record handed to the function.
* A reference parameter that the function fills is an argument (the content before the
  call) and part of the result (the content after the call).
* A `switch` is the cascade of comparisons with its case labels, in source order.  C++
  requires the labels of one `switch` to be pairwise different, so at most one of them
  matches; theorems that depend on this carry it as a hypothesis on `E`.
-/

namespace PigeonIMU

/-- The integer values of the enumerators of `PigeonState` and `CalibrationMode`. -/
structure EnumValues where
  NoComm : Int
  Initializing : Int
  Ready : Int
  UserCalibration : Int
  BootTareGyroAccel : Int
  Temperature : Int
  Magnetometer12Pt : Int
  Magnetometer360 : Int
  Accelerometer : Int

/-- The case labels of `switch (state)` in `ToString(PigeonState)` are pairwise different. -/
def EnumValues.StatesDistinct (E : EnumValues) : Prop :=
  [E.Initializing, E.Ready, E.UserCalibration, E.NoComm].Nodup

/-- The case labels of the two `switch` statements over calibration modes are pairwise
different. -/
def EnumValues.ModesDistinct (E : EnumValues) : Prop :=
  [E.BootTareGyroAccel, E.Temperature, E.Magnetometer12Pt, E.Magnetometer360,
    E.Accelerometer].Nodup

instance (E : EnumValues) : Decidable E.StatesDistinct := by
  unfold EnumValues.StatesDistinct; infer_instance

instance (E : EnumValues) : Decidable E.ModesDistinct := by
  unfold EnumValues.ModesDistinct; infer_instance

/-- A concrete numbering with `BootTareGyroAccel = 0`, used to instantiate the theorems. -/
def sampleEnums : EnumValues where
  NoComm := 0
  Initializing := 1
  Ready := 2
  UserCalibration := 3
  BootTareGyroAccel := 0
  Temperature := 1
  Magnetometer12Pt := 2
  Magnetometer360 := 3
  Accelerometer := 5

/-- The caller's container `PigeonIMU::GeneralStatus`. -/
structure GeneralStatus where
  state : Int
  currentMode : Int
  calibrationError : Int
  bCalIsBooting : Bool
  description : String
  tempC : Float
  upTimeSec : Int
  noMotionBiasCount : Int
  tempCompensationCount : Int
  lastError : Int

/-- What `c_PigeonIMU_GetGeneralStatus` delivers: the nine out-parameters and the returned
error code. -/
structure GeneralStatusFrame where
  state : Int
  currentMode : Int
  calibrationError : Int
  bCalIsBooting : Int
  tempC : Float
  upTimeSec : Int
  noMotionBiasCount : Int
  tempCompensationCount : Int
  lastError : Int
  errCode : Int

/-- The caller's container `PigeonIMU::FusionStatus`. -/
structure FusionStatus where
  heading : Float
  bIsValid : Bool
  bIsFusing : Bool
  description : String
  lastError : Int

/-- What `c_PigeonIMU_GetFusedHeading2` delivers: the four out-parameters and the returned
error code. -/
structure FusedHeadingFrame where
  bIsFusing : Int
  bIsValid : Int
  fusedHeading : Float
  lastError : Int
  errCode : Int

/-- The C++ conversion of an `int` to `bool`: every nonzero value is `true`. -/
def intToBool (v : Int) : Bool := decide (v ≠ 0)

/-- The library function `std::to_string(int)`: the decimal digits of the value, with a
leading minus sign for a negative one. -/
def to_string (v : Int) : String :=
  match v with
  | Int.ofNat m => String.mk (Nat.toDigits 10 m)
  | Int.negSucc m => "-" ++ String.mk (Nat.toDigits 10 (m + 1))

/-- The number written by a list of decimal digit characters, most significant first. -/
def decimalValue (cs : List Char) : Nat :=
  cs.foldl (fun acc c => 10 * acc + (c.toNat - 48)) 0

/-- Reads back a decimal rendering: an optional leading minus sign, then digits. -/
def fromDecimal (s : String) : Int :=
  if s.data.head? = some '-' then -(decimalValue s.data.tail : Int)
  else (decimalValue s.data : Int)

/-- The description assigned when the status frame was not received. -/
def descNoFrame : String :=
  "Status frame was not received, check wired connections and web-based config."

/-- The description assigned while the boot-calibration flag is set. -/
def descBootCal : String :=
  "Pigeon is boot-caling to properly bias accel and gyro.  Do not move Pigeon.  When finished biasing, calibration mode will start."

/-- The description of calibration mode `BootTareGyroAccel`. -/
def descBootTareGyroAccel : String :=
  "Boot-Calibration: Gyro and Accelerometer are being biased."

/-- The description of calibration mode `Temperature` (two adjacent literals in the
source). -/
def descTemperature : String :=
  "Temperature-Calibration: Pigeon is collecting temp data and will finish when temp range is reached.  " ++
    "Do not moved Pigeon."

/-- The description of calibration mode `Magnetometer12Pt`. -/
def descMagnetometer12Pt : String :=
  "Magnetometer Level 1 calibration: Orient the Pigeon PCB in the 12 positions documented in the User's Manual."

/-- The description of calibration mode `Magnetometer360`. -/
def descMagnetometer360 : String :=
  "Magnetometer Level 2 calibration: Spin robot slowly in 360' fashion.  "

/-- The description of calibration mode `Accelerometer`. -/
def descAccelerometer : String :=
  "Accelerometer Calibration: Pigeon PCB must be placed on a level source.  Follow User's Guide for how to level surfacee.  "

/-- The first part of the description of state `Ready`. -/
def descReadyPrefix : String :=
  "Pigeon is running normally.  Last CAL error code was "

/-- The description of state `Initializing`. -/
def descInitializing : String :=
  "Pigeon is boot-caling to properly bias accel and gyro.  Do not move Pigeon."

/-- The description of every other state. -/
def descNotEnoughData : String :=
  "Not enough data to determine status."

/-- The `switch (currentMode)` of `GetGeneralStatus`: one assignment per case label and no
`default`, so an unlisted value leaves the description as it is. -/
def modeDescription (E : EnumValues) (currentMode : Int) (description : String) : String :=
  if currentMode = E.BootTareGyroAccel then descBootTareGyroAccel
  else if currentMode = E.Temperature then descTemperature
  else if currentMode = E.Magnetometer12Pt then descMagnetometer12Pt
  else if currentMode = E.Magnetometer360 then descMagnetometer360
  else if currentMode = E.Accelerometer then descAccelerometer
  else description

/-- The function `PigeonIMU::GetGeneralStatus`: copies the delivered values into the
container, builds the description, and returns the container with the error code. -/
def GetGeneralStatus (E : EnumValues) (rx : GeneralStatusFrame)
    (statusToFill : GeneralStatus) : GeneralStatus × Int :=
  let errCode := rx.errCode
  let filled : GeneralStatus :=
    { statusToFill with
      currentMode := rx.currentMode
      calibrationError := rx.calibrationError
      bCalIsBooting := intToBool rx.bCalIsBooting
      state := rx.state
      tempC := rx.tempC
      noMotionBiasCount := rx.noMotionBiasCount
      tempCompensationCount := rx.tempCompensationCount
      upTimeSec := rx.upTimeSec
      lastError := errCode }
  let description : String :=
    if errCode ≠ 0 then descNoFrame
    else if filled.bCalIsBooting = true then descBootCal
    else if filled.state = E.UserCalibration then
      modeDescription E rx.currentMode filled.description
    else if filled.state = E.Ready then
      descReadyPrefix ++ to_string rx.calibrationError ++ "."
    else if filled.state = E.Initializing then descInitializing
    else descNotEnoughData
  ({ filled with description := description }, errCode)

/-- The function `PigeonIMU::GetFusedHeading(FusionStatus &)`: classifies the fusion flags,
fills the container, and returns it with the fused heading. -/
def GetFusedHeading (rx : FusedHeadingFrame) (status : FusionStatus) : FusionStatus × Float :=
  let errCode := rx.errCode
  let fusedHeading := rx.fusedHeading
  let flags : Int × Int × String :=
    if errCode ≠ 0 then
      (0, 0, "Could not receive status frame.  Check wiring and web-config.")
    else if rx.bIsValid = 0 then
      (rx.bIsFusing, rx.bIsValid, "Fused Heading is not valid.")
    else if rx.bIsFusing = 0 then
      (rx.bIsFusing, rx.bIsValid, "Fused Heading is valid.")
    else
      (rx.bIsFusing, rx.bIsValid, "Fused Heading is valid and is fusing compass.")
  ({ status with
      heading := fusedHeading
      bIsFusing := intToBool flags.1
      bIsValid := intToBool flags.2.1
      description := flags.2.2
      lastError := errCode }, fusedHeading)

/-- The function `PigeonIMU::ToString(PigeonState)`. -/
def ToStringState (E : EnumValues) (state : Int) : String :=
  let retval := "Unknown"
  if state = E.Initializing then "Initializing"
  else if state = E.Ready then "Ready"
  else if state = E.UserCalibration then "UserCalibration"
  else if state = E.NoComm then "NoComm"
  else retval

/-- The function `PigeonIMU::ToString(CalibrationMode)`. -/
def ToStringMode (E : EnumValues) (cm : Int) : String :=
  let retval := "Unknown"
  if cm = E.BootTareGyroAccel then "BootTareGyroAccel"
  else if cm = E.Temperature then "Temperature"
  else if cm = E.Magnetometer12Pt then "Magnetometer12Pt"
  else if cm = E.Magnetometer360 then "Magnetometer360"
  else if cm = E.Accelerometer then "Accelerometer"
  else retval

/-- What a fault read of the transport delivers: the bitmask written to the out-parameter
and the returned error code. -/
structure FaultBitsFrame where
  faultBits : Int
  retval : Int

/-- The state of the transport as far as fault reads go: the answer `c_PigeonIMU_GetFaults`
gives for the live faults, and the answer a read of the sticky-fault register would give. -/
structure FaultTransport where
  liveFaults : FaultBitsFrame
  stickyFaults : FaultBitsFrame

/-- The transport call `c_PigeonIMU_GetFaults`: reads the live faults. -/
def c_PigeonIMU_GetFaults (handle : FaultTransport) : FaultBitsFrame :=
  handle.liveFaults

/-- The function `PigeonIMU::GetFaults`.  The constructor `PigeonIMU_Faults(int)` is declared
in a header and is the parameter `mkFaults`. -/
def GetFaults {F : Type} (mkFaults : Int → F) (handle : FaultTransport) (_toFill : F) :
    F × Int :=
  let rx := c_PigeonIMU_GetFaults handle
  (mkFaults rx.faultBits, rx.retval)

/-- The function `PigeonIMU::GetStickyFaults`.  The constructor
`PigeonIMU_StickyFaults(int)` is declared in a header and is the parameter
`mkStickyFaults`. -/
def GetStickyFaults {S : Type} (mkStickyFaults : Int → S) (handle : FaultTransport)
    (_toFill : S) : S × Int :=
  let rx := c_PigeonIMU_GetFaults handle
  (mkStickyFaults rx.faultBits, rx.retval)

/-! ## Auxiliary facts about the enumerator values -/

theorem statesDistinct_iff (E : EnumValues) :
    E.StatesDistinct ↔
      (¬E.Initializing = E.Ready ∧ ¬E.Initializing = E.UserCalibration ∧
        ¬E.Initializing = E.NoComm) ∧
      (¬E.Ready = E.UserCalibration ∧ ¬E.Ready = E.NoComm) ∧
      ¬E.UserCalibration = E.NoComm := by
  simp only [EnumValues.StatesDistinct, List.nodup_cons, List.mem_cons, List.mem_singleton,
    List.not_mem_nil, not_or, or_false, not_false_eq_true, and_true, List.nodup_nil]

theorem modesDistinct_iff (E : EnumValues) :
    E.ModesDistinct ↔
      (¬E.BootTareGyroAccel = E.Temperature ∧ ¬E.BootTareGyroAccel = E.Magnetometer12Pt ∧
        ¬E.BootTareGyroAccel = E.Magnetometer360 ∧ ¬E.BootTareGyroAccel = E.Accelerometer) ∧
      (¬E.Temperature = E.Magnetometer12Pt ∧ ¬E.Temperature = E.Magnetometer360 ∧
        ¬E.Temperature = E.Accelerometer) ∧
      (¬E.Magnetometer12Pt = E.Magnetometer360 ∧ ¬E.Magnetometer12Pt = E.Accelerometer) ∧
      ¬E.Magnetometer360 = E.Accelerometer := by
  simp only [EnumValues.ModesDistinct, List.nodup_cons, List.mem_cons, List.mem_singleton,
    List.not_mem_nil, not_or, or_false, not_false_eq_true, and_true, List.nodup_nil]

theorem ToStringState_known (E : EnumValues) (hE : E.StatesDistinct) :
    ToStringState E E.Initializing = "Initializing" ∧ ToStringState E E.Ready = "Ready" ∧
    ToStringState E E.UserCalibration = "UserCalibration" ∧
    ToStringState E E.NoComm = "NoComm" := by
  obtain ⟨⟨h01, h02, h03⟩, ⟨h12, h13⟩, h23⟩ := (statesDistinct_iff E).1 hE
  refine ⟨?_, ?_, ?_, ?_⟩
  · simp [ToStringState]
  · simp [ToStringState, Ne.symm h01]
  · simp [ToStringState, Ne.symm h02, Ne.symm h12]
  · simp [ToStringState, Ne.symm h03, Ne.symm h13, Ne.symm h23]

theorem ToStringMode_known (E : EnumValues) (hE : E.ModesDistinct) :
    ToStringMode E E.BootTareGyroAccel = "BootTareGyroAccel" ∧
    ToStringMode E E.Temperature = "Temperature" ∧
    ToStringMode E E.Magnetometer12Pt = "Magnetometer12Pt" ∧
    ToStringMode E E.Magnetometer360 = "Magnetometer360" ∧
    ToStringMode E E.Accelerometer = "Accelerometer" := by
  obtain ⟨⟨h01, h02, h03, h04⟩, ⟨h12, h13, h14⟩, ⟨h23, h24⟩, h34⟩ :=
    (modesDistinct_iff E).1 hE
  refine ⟨?_, ?_, ?_, ?_, ?_⟩
  · simp [ToStringMode]
  · simp [ToStringMode, Ne.symm h01]
  · simp [ToStringMode, Ne.symm h02, Ne.symm h12]
  · simp [ToStringMode, Ne.symm h03, Ne.symm h13, Ne.symm h23]
  · simp [ToStringMode, Ne.symm h04, Ne.symm h14, Ne.symm h24, Ne.symm h34]

/-! ## Auxiliary facts about the description texts -/

theorem descBootCal_ne_ready (t : String) : descBootCal ≠ descReadyPrefix ++ t := by
  intro h
  have h1 := congrArg String.data h
  rw [String.data_append] at h1
  have h2 := congrArg (List.take 11) h1
  rw [List.take_append_of_le_length (by decide)] at h2
  revert h2
  decide

theorem modeDescriptions_nodup :
    [descBootTareGyroAccel, descTemperature, descMagnetometer12Pt, descMagnetometer360,
      descAccelerometer].Nodup := by
  decide

/-! ## Auxiliary facts about the decimal rendering -/

theorem digitChar_value : ∀ k, k < 10 → (Nat.digitChar k).toNat - 48 = k := by
  decide

theorem digitChar_ne_minus : ∀ k, k < 10 → Nat.digitChar k ≠ '-' := by
  decide

theorem toDigitsCore_append (fuel n : Nat) (ds : List Char) :
    Nat.toDigitsCore 10 fuel n ds = Nat.toDigitsCore 10 fuel n [] ++ ds := by
  induction fuel generalizing n ds with
  | zero => simp [Nat.toDigitsCore]
  | succ fuel ih =>
    simp only [Nat.toDigitsCore]
    by_cases h : n / 10 = 0
    · simp [h]
    · simp only [h, if_false]
      rw [ih (n / 10) (Nat.digitChar (n % 10) :: ds), ih (n / 10) [Nat.digitChar (n % 10)]]
      simp

theorem decimalValue_toDigitsCore (fuel n : Nat) (h : n < fuel) :
    decimalValue (Nat.toDigitsCore 10 fuel n []) = n := by
  induction fuel generalizing n with
  | zero => omega
  | succ fuel ih =>
    simp only [Nat.toDigitsCore]
    have hd := digitChar_value (n % 10) (Nat.mod_lt n (by decide))
    by_cases h0 : n / 10 = 0
    · simp only [h0, if_true, decimalValue, List.foldl, hd]
      omega
    · simp only [h0, if_false]
      rw [toDigitsCore_append]
      have hrec := ih (n / 10) (by omega)
      simp only [decimalValue] at hrec
      simp only [decimalValue, List.foldl_append, List.foldl, hrec, hd]
      omega

theorem minus_not_mem_toDigitsCore (fuel n : Nat) (ds : List Char) (h : '-' ∉ ds) :
    '-' ∉ Nat.toDigitsCore 10 fuel n ds := by
  induction fuel generalizing n ds with
  | zero => simpa [Nat.toDigitsCore] using h
  | succ fuel ih =>
    have hc : '-' ∉ Nat.digitChar (n % 10) :: ds := by
      intro hm
      rcases List.mem_cons.1 hm with hm | hm
      · exact digitChar_ne_minus (n % 10) (Nat.mod_lt n (by decide)) hm.symm
      · exact h hm
    simp only [Nat.toDigitsCore]
    by_cases h0 : n / 10 = 0
    · simpa only [h0, if_true] using hc
    · simpa only [h0, if_false] using ih (n / 10) _ hc

theorem decimalValue_toDigits (n : Nat) : decimalValue (Nat.toDigits 10 n) = n :=
  decimalValue_toDigitsCore (n + 1) n (Nat.lt_succ_self n)

theorem to_string_eq_toString (v : Int) : to_string v = toString v := by
  cases v <;> rfl

theorem fromDecimal_to_string (v : Int) : fromDecimal (to_string v) = v := by
  cases v with
  | ofNat m =>
    have hm : (Nat.toDigits 10 m).head? ≠ some '-' := by
      intro hh
      exact minus_not_mem_toDigitsCore (m + 1) m [] (List.not_mem_nil _)
        (List.mem_of_mem_head? hh)
    simp only [to_string, fromDecimal, hm, if_false, decimalValue_toDigits]
    rfl
  | negSucc k =>
    have hdata : ("-" ++ String.mk (Nat.toDigits 10 (k + 1))).data =
        '-' :: Nat.toDigits 10 (k + 1) := by
      rw [String.data_append]; rfl
    simp only [to_string, fromDecimal, hdata, List.head?_cons, List.tail_cons, if_true,
      decimalValue_toDigits]
    rfl

theorem to_string_injective : Function.Injective to_string := by
  intro a b h
  have := congrArg fromDecimal h
  rwa [fromDecimal_to_string, fromDecimal_to_string] at this

theorem readyDescription_injective (a b : Int)
    (h : descReadyPrefix ++ to_string a ++ "." = descReadyPrefix ++ to_string b ++ ".") :
    a = b := by
  have h1 := congrArg String.data h
  simp only [String.data_append] at h1
  have h2 := List.append_cancel_right h1
  have h3 := List.append_cancel_left h2
  exact to_string_injective (String.ext h3)

/-! ## GetGeneralStatus and GetFusedHeading -/

/-- C1: whenever the transport reports a nonzero error code, the description after
`GetGeneralStatus` is the "status frame was not received" message, for every delivered
value and every prior content of the container. -/
theorem GetGeneralStatus_error_description (E : EnumValues) (rx : GeneralStatusFrame)
    (statusToFill : GeneralStatus) (herr : rx.errCode ≠ 0) :
    (GetGeneralStatus E rx statusToFill).1.description =
      "Status frame was not received, check wired connections and web-based config." := by
  simp [GetGeneralStatus, herr, descNoFrame]

/-- Instance of C1: error code 7 with state `Ready`, mode 4, the boot flag set and a prior
description. -/
theorem GetGeneralStatus_error_description_witness :
    (7 : Int) ≠ 0 ∧
    (GetGeneralStatus sampleEnums ⟨2, 4, -3, 1, 21.5, 10, 0, 0, 0, 7⟩
        ⟨0, 0, 0, false, "old text", 0.0, 0, 0, 0, 0⟩).1.description =
      "Status frame was not received, check wired connections and web-based config." :=
  ⟨by decide, GetGeneralStatus_error_description sampleEnums
    ⟨2, 4, -3, 1, 21.5, 10, 0, 0, 0, 7⟩ ⟨0, 0, 0, false, "old text", 0.0, 0, 0, 0, 0⟩
    (by decide)⟩

/-- C2: with error code 0 and a nonzero boot-calibration flag, the description after
`GetGeneralStatus` is the boot-calibration message for every state and mode, and it is not
a "running normally" message, whatever error number that message would embed. -/
theorem GetGeneralStatus_bootcal_description (E : EnumValues) (rx : GeneralStatusFrame)
    (statusToFill : GeneralStatus) (herr : rx.errCode = 0) (hboot : rx.bCalIsBooting ≠ 0) :
    (GetGeneralStatus E rx statusToFill).1.description =
      "Pigeon is boot-caling to properly bias accel and gyro.  Do not move Pigeon.  When finished biasing, calibration mode will start." ∧
    ∀ v : Int, (GetGeneralStatus E rx statusToFill).1.description ≠
      "Pigeon is running normally.  Last CAL error code was " ++ to_string v ++ "." := by
  have hd : (GetGeneralStatus E rx statusToFill).1.description = descBootCal := by
    simp [GetGeneralStatus, herr, hboot, intToBool]
  refine ⟨by rw [hd]; rfl, ?_⟩
  intro v
  rw [hd, String.append_assoc]
  exact descBootCal_ne_ready _

/-- Instance of C2: error code 0, boot flag 1 and state `Ready`. -/
theorem GetGeneralStatus_bootcal_description_witness :
    (0 : Int) = 0 ∧ (1 : Int) ≠ 0 ∧
    (GetGeneralStatus sampleEnums ⟨sampleEnums.Ready, 0, 0, 1, 21.5, 10, 0, 0, 0, 0⟩
        ⟨0, 0, 0, false, "", 0.0, 0, 0, 0, 0⟩).1.description =
      "Pigeon is boot-caling to properly bias accel and gyro.  Do not move Pigeon.  When finished biasing, calibration mode will start." :=
  ⟨rfl, by decide, (GetGeneralStatus_bootcal_description sampleEnums
    ⟨sampleEnums.Ready, 0, 0, 1, 21.5, 10, 0, 0, 0, 0⟩ ⟨0, 0, 0, false, "", 0.0, 0, 0, 0, 0⟩
    rfl (by decide)).1⟩

/-- C3: whenever the transport reports a nonzero error code, `GetFusedHeading` fills the
status with both flags false and the "could not receive status frame" description,
whatever the delivered flags are. -/
theorem GetFusedHeading_error_overrides (rx : FusedHeadingFrame) (status : FusionStatus)
    (herr : rx.errCode ≠ 0) :
    (GetFusedHeading rx status).1.bIsFusing = false ∧
    (GetFusedHeading rx status).1.bIsValid = false ∧
    (GetFusedHeading rx status).1.description =
      "Could not receive status frame.  Check wiring and web-config." := by
  simp [GetFusedHeading, herr, intToBool]

/-- Instance of C3: error code 5 with both delivered flags set and heading 90.0. -/
theorem GetFusedHeading_error_overrides_witness :
    (5 : Int) ≠ 0 ∧
    (GetFusedHeading ⟨1, 1, 90.0, 0, 5⟩ ⟨0.0, true, true, "", 0⟩).1.bIsFusing = false ∧
    (GetFusedHeading ⟨1, 1, 90.0, 0, 5⟩ ⟨0.0, true, true, "", 0⟩).1.bIsValid = false ∧
    (GetFusedHeading ⟨1, 1, 90.0, 0, 5⟩ ⟨0.0, true, true, "", 0⟩).1.description =
      "Could not receive status frame.  Check wiring and web-config." :=
  ⟨by decide, GetFusedHeading_error_overrides ⟨1, 1, 90.0, 0, 5⟩ ⟨0.0, true, true, "", 0⟩
    (by decide)⟩

/-- C4: with error code 0, `GetFusedHeading` describes the heading as "not valid" when the
delivered valid flag is 0, as "valid" when the valid flag is nonzero and the fusing flag is
0, and as "valid and is fusing compass" exactly when both flags are nonzero; the two
output flags are the delivered flags converted to booleans. -/
theorem GetFusedHeading_classification (rx : FusedHeadingFrame) (status : FusionStatus)
    (herr : rx.errCode = 0) :
    (rx.bIsValid = 0 →
      (GetFusedHeading rx status).1.description = "Fused Heading is not valid.") ∧
    (rx.bIsValid ≠ 0 → rx.bIsFusing = 0 →
      (GetFusedHeading rx status).1.description = "Fused Heading is valid.") ∧
    ((GetFusedHeading rx status).1.description =
        "Fused Heading is valid and is fusing compass." ↔
      rx.bIsValid ≠ 0 ∧ rx.bIsFusing ≠ 0) ∧
    ((GetFusedHeading rx status).1.bIsFusing = true ↔ rx.bIsFusing ≠ 0) ∧
    ((GetFusedHeading rx status).1.bIsValid = true ↔ rx.bIsValid ≠ 0) := by
  by_cases hv : rx.bIsValid = 0 <;> by_cases hf : rx.bIsFusing = 0 <;>
    simp [GetFusedHeading, herr, hv, hf, intToBool]

/-- Instance of C4: error code 0, fusing flag 0, valid flag 1 and heading 42.0 give the
description "Fused Heading is valid.". -/
theorem GetFusedHeading_classification_witness :
    (0 : Int) = 0 ∧
    (GetFusedHeading ⟨0, 1, 42.0, 0, 0⟩ ⟨0.0, false, false, "", 0⟩).1.description =
      "Fused Heading is valid." :=
  ⟨rfl, (GetFusedHeading_classification ⟨0, 1, 42.0, 0, 0⟩ ⟨0.0, false, false, "", 0⟩
    rfl).2.1 (by decide) rfl⟩

/-- C5: with error code 0, boot-calibration flag 0 and state `UserCalibration`, each of
the five known calibration modes yields its own description, the five descriptions are
pairwise different, and `Magnetometer360` yields the 360-degree spin text. -/
theorem GetGeneralStatus_userCalibration_modes (E : EnumValues) (hE : E.ModesDistinct)
    (rx : GeneralStatusFrame) (statusToFill : GeneralStatus) (herr : rx.errCode = 0)
    (hboot : rx.bCalIsBooting = 0) (hstate : rx.state = E.UserCalibration) :
    (rx.currentMode = E.BootTareGyroAccel →
      (GetGeneralStatus E rx statusToFill).1.description = descBootTareGyroAccel) ∧
    (rx.currentMode = E.Temperature →
      (GetGeneralStatus E rx statusToFill).1.description = descTemperature) ∧
    (rx.currentMode = E.Magnetometer12Pt →
      (GetGeneralStatus E rx statusToFill).1.description = descMagnetometer12Pt) ∧
    (rx.currentMode = E.Magnetometer360 →
      (GetGeneralStatus E rx statusToFill).1.description =
        "Magnetometer Level 2 calibration: Spin robot slowly in 360' fashion.  ") ∧
    (rx.currentMode = E.Accelerometer →
      (GetGeneralStatus E rx statusToFill).1.description = descAccelerometer) ∧
    [descBootTareGyroAccel, descTemperature, descMagnetometer12Pt,
      "Magnetometer Level 2 calibration: Spin robot slowly in 360' fashion.  ",
      descAccelerometer].Nodup := by
  have hd : (GetGeneralStatus E rx statusToFill).1.description =
      modeDescription E rx.currentMode statusToFill.description := by
    simp [GetGeneralStatus, herr, hboot, hstate, intToBool]
  obtain ⟨⟨h01, h02, h03, h04⟩, ⟨h12, h13, h14⟩, ⟨h23, h24⟩, h34⟩ :=
    (modesDistinct_iff E).1 hE
  rw [hd]
  refine ⟨?_, ?_, ?_, ?_, ?_, modeDescriptions_nodup⟩ <;> intro hm <;> rw [hm]
  · simp [modeDescription]
  · simp [modeDescription, Ne.symm h01]
  · simp [modeDescription, Ne.symm h02, Ne.symm h12]
  · simp [modeDescription, Ne.symm h03, Ne.symm h13, Ne.symm h23]
    rfl
  · simp [modeDescription, Ne.symm h04, Ne.symm h14, Ne.symm h24, Ne.symm h34]

/-- Instance of C5: mode `Magnetometer360` under the sample numbering. -/
theorem GetGeneralStatus_userCalibration_modes_witness :
    sampleEnums.ModesDistinct ∧ (0 : Int) = 0 ∧
    (GetGeneralStatus sampleEnums
        ⟨sampleEnums.UserCalibration, sampleEnums.Magnetometer360, 0, 0, 21.5, 10, 0, 0, 0, 0⟩
        ⟨0, 0, 0, false, "", 0.0, 0, 0, 0, 0⟩).1.description =
      "Magnetometer Level 2 calibration: Spin robot slowly in 360' fashion.  " ∧
    "Magnetometer Level 2 calibration: Spin robot slowly in 360' fashion.  " ≠
      descMagnetometer12Pt :=
  ⟨by decide, rfl, (GetGeneralStatus_userCalibration_modes sampleEnums (by decide)
    ⟨sampleEnums.UserCalibration, sampleEnums.Magnetometer360, 0, 0, 21.5, 10, 0, 0, 0, 0⟩
    ⟨0, 0, 0, false, "", 0.0, 0, 0, 0, 0⟩ rfl rfl rfl).2.2.2.1 rfl, by decide⟩

/-- C6: the description after `GetGeneralStatus` can be empty.  With error code 0, boot flag
0, state `UserCalibration` and calibration mode 4 (none of 0, 1, 2, 3, 5), a container whose
description was empty still has an empty description; and under every numbering of the
enumerators some frame with error code 0 leaves a fresh container's description empty. -/
theorem GetGeneralStatus_description_empty :
    (GetGeneralStatus sampleEnums ⟨3, 4, 0, 0, 21.5, 10, 0, 0, 0, 0⟩
        ⟨0, 0, 0, false, "", 0.0, 0, 0, 0, 0⟩).1.description = "" ∧
    ∀ E : EnumValues, ∃ rx : GeneralStatusFrame, rx.errCode = 0 ∧
      (GetGeneralStatus E rx ⟨0, 0, 0, false, "", 0.0, 0, 0, 0, 0⟩).1.description = "" := by
  refine ⟨by decide, ?_⟩
  intro E
  refine ⟨⟨E.UserCalibration,
    max E.BootTareGyroAccel (max E.Temperature (max E.Magnetometer12Pt
      (max E.Magnetometer360 E.Accelerometer))) + 1, 0, 0, 0.0, 0, 0, 0, 0, 0⟩, rfl, ?_⟩
  have h0 : max E.BootTareGyroAccel (max E.Temperature (max E.Magnetometer12Pt
      (max E.Magnetometer360 E.Accelerometer))) + 1 ≠ E.BootTareGyroAccel := by omega
  have h1 : max E.BootTareGyroAccel (max E.Temperature (max E.Magnetometer12Pt
      (max E.Magnetometer360 E.Accelerometer))) + 1 ≠ E.Temperature := by omega
  have h2 : max E.BootTareGyroAccel (max E.Temperature (max E.Magnetometer12Pt
      (max E.Magnetometer360 E.Accelerometer))) + 1 ≠ E.Magnetometer12Pt := by omega
  have h3 : max E.BootTareGyroAccel (max E.Temperature (max E.Magnetometer12Pt
      (max E.Magnetometer360 E.Accelerometer))) + 1 ≠ E.Magnetometer360 := by omega
  have h4 : max E.BootTareGyroAccel (max E.Temperature (max E.Magnetometer12Pt
      (max E.Magnetometer360 E.Accelerometer))) + 1 ≠ E.Accelerometer := by omega
  simp [GetGeneralStatus, intToBool, modeDescription, h0, h1, h2, h3, h4]

/-- C7: with error code 0, boot-calibration flag 0 and state `Ready`, the description is
"Pigeon is running normally.  Last CAL error code was " followed by the decimal rendering
of `calibrationError` and a full stop, for every integer including negative ones; two such
frames with different `calibrationError` values get different descriptions. -/
theorem GetGeneralStatus_ready_description (E : EnumValues) (hE : E.StatesDistinct)
    (rx : GeneralStatusFrame) (statusToFill : GeneralStatus) (herr : rx.errCode = 0)
    (hboot : rx.bCalIsBooting = 0) (hstate : rx.state = E.Ready) :
    (GetGeneralStatus E rx statusToFill).1.description =
      "Pigeon is running normally.  Last CAL error code was " ++
        to_string rx.calibrationError ++ "." ∧
    fromDecimal (to_string rx.calibrationError) = rx.calibrationError ∧
    ∀ (rx2 : GeneralStatusFrame) (status2 : GeneralStatus), rx2.errCode = 0 →
      rx2.bCalIsBooting = 0 → rx2.state = E.Ready →
      rx2.calibrationError ≠ rx.calibrationError →
      (GetGeneralStatus E rx2 status2).1.description ≠
        (GetGeneralStatus E rx statusToFill).1.description := by
  obtain ⟨-, ⟨hRU, -⟩, -⟩ := (statesDistinct_iff E).1 hE
  have key : ∀ (r : GeneralStatusFrame) (st : GeneralStatus), r.errCode = 0 →
      r.bCalIsBooting = 0 → r.state = E.Ready →
      (GetGeneralStatus E r st).1.description =
        descReadyPrefix ++ to_string r.calibrationError ++ "." := by
    intro r st h1 h2 h3
    simp [GetGeneralStatus, h1, h2, h3, hRU, intToBool]
  refine ⟨key rx statusToFill herr hboot hstate, fromDecimal_to_string _, ?_⟩
  intro rx2 status2 h1 h2 h3 hne heq
  rw [key rx2 status2 h1 h2 h3, key rx statusToFill herr hboot hstate] at heq
  exact hne (readyDescription_injective _ _ heq)

/-- Instance of C7: calibration error -7 under the sample numbering. -/
theorem GetGeneralStatus_ready_description_witness :
    sampleEnums.StatesDistinct ∧ (0 : Int) = 0 ∧
    (GetGeneralStatus sampleEnums ⟨sampleEnums.Ready, 0, -7, 0, 21.5, 10, 0, 0, 0, 0⟩
        ⟨0, 0, 0, false, "", 0.0, 0, 0, 0, 0⟩).1.description =
      "Pigeon is running normally.  Last CAL error code was -7." :=
  ⟨by decide, rfl, (GetGeneralStatus_ready_description sampleEnums (by decide)
    ⟨sampleEnums.Ready, 0, -7, 0, 21.5, 10, 0, 0, 0, 0⟩ ⟨0, 0, 0, false, "", 0.0, 0, 0, 0, 0⟩
    rfl rfl rfl).1.trans (by decide)⟩

/-- C8 as stated fails: under the sample numbering, the description for state
`Initializing` with the boot-calibration flag clear differs from the description the same
frame gets with the flag set. -/
theorem GetGeneralStatus_initializing_ne_bootcal :
    (GetGeneralStatus sampleEnums ⟨1, 0, 0, 0, 21.5, 10, 0, 0, 0, 0⟩
        ⟨0, 0, 0, false, "", 0.0, 0, 0, 0, 0⟩).1.description ≠
    (GetGeneralStatus sampleEnums ⟨1, 0, 0, 1, 21.5, 10, 0, 0, 0, 0⟩
        ⟨0, 0, 0, false, "", 0.0, 0, 0, 0, 0⟩).1.description := by
  decide

/-- C8 amended: with error code 0, boot-calibration flag 0 and state `Initializing`, the
description is "Pigeon is boot-caling to properly bias accel and gyro.  Do not move
Pigeon."; the description of a frame with the boot-calibration flag set is this text
followed by "  When finished biasing, calibration mode will start.", so the two differ. -/
theorem GetGeneralStatus_initializing_description (E : EnumValues) (hE : E.StatesDistinct)
    (rx : GeneralStatusFrame) (statusToFill : GeneralStatus) (herr : rx.errCode = 0)
    (hboot : rx.bCalIsBooting = 0) (hstate : rx.state = E.Initializing) :
    (GetGeneralStatus E rx statusToFill).1.description =
      "Pigeon is boot-caling to properly bias accel and gyro.  Do not move Pigeon." ∧
    ∀ (rx2 : GeneralStatusFrame) (status2 : GeneralStatus), rx2.errCode = 0 →
      rx2.bCalIsBooting ≠ 0 →
      (GetGeneralStatus E rx2 status2).1.description =
        (GetGeneralStatus E rx statusToFill).1.description ++
          "  When finished biasing, calibration mode will start." ∧
      (GetGeneralStatus E rx2 status2).1.description ≠
        (GetGeneralStatus E rx statusToFill).1.description := by
  obtain ⟨⟨hIR, hIU, -⟩, -, -⟩ := (statesDistinct_iff E).1 hE
  have hd : (GetGeneralStatus E rx statusToFill).1.description = descInitializing := by
    simp [GetGeneralStatus, herr, hboot, hstate, hIR, hIU, intToBool]
  refine ⟨by rw [hd]; rfl, ?_⟩
  intro rx2 status2 h1 h2
  have hd2 : (GetGeneralStatus E rx2 status2).1.description = descBootCal := by
    simp [GetGeneralStatus, h1, h2, intToBool]
  rw [hd, hd2]
  exact ⟨by decide, by decide⟩

/-- Instance of C8 amended: state `Initializing` under the sample numbering. -/
theorem GetGeneralStatus_initializing_description_witness :
    sampleEnums.StatesDistinct ∧ (0 : Int) = 0 ∧
    (GetGeneralStatus sampleEnums ⟨sampleEnums.Initializing, 0, 0, 0, 21.5, 10, 0, 0, 0, 0⟩
        ⟨0, 0, 0, false, "", 0.0, 0, 0, 0, 0⟩).1.description =
      "Pigeon is boot-caling to properly bias accel and gyro.  Do not move Pigeon." :=
  ⟨by decide, rfl, (GetGeneralStatus_initializing_description sampleEnums (by decide)
    ⟨sampleEnums.Initializing, 0, 0, 0, 21.5, 10, 0, 0, 0, 0⟩
    ⟨0, 0, 0, false, "", 0.0, 0, 0, 0, 0⟩ rfl rfl rfl).1⟩

/-- C11: for every delivered frame and every error code, zero or not, the value returned
by `GetFusedHeading` and the `heading` it stores are the heading delivered by the
transport, and the stored `lastError` is the error code the transport read returned. -/
theorem GetFusedHeading_heading_passthrough (rx : FusedHeadingFrame)
    (status : FusionStatus) :
    (GetFusedHeading rx status).2 = rx.fusedHeading ∧
    (GetFusedHeading rx status).1.heading = rx.fusedHeading ∧
    (GetFusedHeading rx status).1.lastError = rx.errCode :=
  ⟨rfl, rfl, rfl⟩

/-- C12: with error code 0 and boot-calibration flag 0, every state that is none of
`UserCalibration`, `Ready` and `Initializing` gets the description "Not enough data to
determine status.", whatever the mode and the calibration error are. -/
theorem GetGeneralStatus_other_state_description (E : EnumValues) (rx : GeneralStatusFrame)
    (statusToFill : GeneralStatus) (herr : rx.errCode = 0) (hboot : rx.bCalIsBooting = 0)
    (hU : rx.state ≠ E.UserCalibration) (hR : rx.state ≠ E.Ready)
    (hI : rx.state ≠ E.Initializing) :
    (GetGeneralStatus E rx statusToFill).1.description =
      "Not enough data to determine status." := by
  simp [GetGeneralStatus, herr, hboot, hU, hR, hI, intToBool, descNotEnoughData]

/-- Instance of C12: state `NoComm` of the sample numbering, and the raw state 99 that is no
enumerator at all. -/
theorem GetGeneralStatus_other_state_description_witness :
    sampleEnums.NoComm ≠ sampleEnums.UserCalibration ∧
    sampleEnums.NoComm ≠ sampleEnums.Ready ∧
    sampleEnums.NoComm ≠ sampleEnums.Initializing ∧
    (GetGeneralStatus sampleEnums ⟨sampleEnums.NoComm, 3, -2, 0, 21.5, 10, 0, 0, 0, 0⟩
        ⟨0, 0, 0, false, "", 0.0, 0, 0, 0, 0⟩).1.description =
      "Not enough data to determine status." ∧
    (GetGeneralStatus sampleEnums ⟨99, 4, 17, 0, 21.5, 10, 0, 0, 0, 0⟩
        ⟨0, 0, 0, false, "old text", 0.0, 0, 0, 0, 0⟩).1.description =
      "Not enough data to determine status." :=
  ⟨by decide, by decide, by decide,
    GetGeneralStatus_other_state_description sampleEnums
      ⟨sampleEnums.NoComm, 3, -2, 0, 21.5, 10, 0, 0, 0, 0⟩
      ⟨0, 0, 0, false, "", 0.0, 0, 0, 0, 0⟩ rfl rfl (by decide) (by decide) (by decide),
    GetGeneralStatus_other_state_description sampleEnums
      ⟨99, 4, 17, 0, 21.5, 10, 0, 0, 0, 0⟩
      ⟨0, 0, 0, false, "old text", 0.0, 0, 0, 0, 0⟩ rfl rfl (by decide) (by decide)
      (by decide)⟩

/-- C13: with error code 0, boot-calibration flag 0, state `UserCalibration` and a
calibration mode that is none of the five enumerators, `GetGeneralStatus` leaves the
description as it was before the call, and every other field of the container holds the
delivered value. -/
theorem GetGeneralStatus_unknown_mode_keeps_description (E : EnumValues)
    (rx : GeneralStatusFrame) (statusToFill : GeneralStatus) (herr : rx.errCode = 0)
    (hboot : rx.bCalIsBooting = 0) (hstate : rx.state = E.UserCalibration)
    (hmode : rx.currentMode ∉ [E.BootTareGyroAccel, E.Temperature, E.Magnetometer12Pt,
      E.Magnetometer360, E.Accelerometer]) :
    (GetGeneralStatus E rx statusToFill).1.description = statusToFill.description ∧
    (GetGeneralStatus E rx statusToFill).1.state = rx.state ∧
    (GetGeneralStatus E rx statusToFill).1.currentMode = rx.currentMode ∧
    (GetGeneralStatus E rx statusToFill).1.calibrationError = rx.calibrationError ∧
    (GetGeneralStatus E rx statusToFill).1.bCalIsBooting = false ∧
    (GetGeneralStatus E rx statusToFill).1.tempC = rx.tempC ∧
    (GetGeneralStatus E rx statusToFill).1.upTimeSec = rx.upTimeSec ∧
    (GetGeneralStatus E rx statusToFill).1.noMotionBiasCount = rx.noMotionBiasCount ∧
    (GetGeneralStatus E rx statusToFill).1.tempCompensationCount =
      rx.tempCompensationCount ∧
    (GetGeneralStatus E rx statusToFill).1.lastError = rx.errCode ∧
    (GetGeneralStatus E rx statusToFill).2 = rx.errCode := by
  simp only [List.mem_cons, List.mem_singleton, List.not_mem_nil, or_false, not_or] at hmode
  obtain ⟨m0, m1, m2, m3, m4⟩ := hmode
  refine ⟨?_, rfl, rfl, rfl, ?_, rfl, rfl, rfl, rfl, rfl, rfl⟩
  · simp [GetGeneralStatus, herr, hboot, hstate, intToBool, modeDescription, m0, m1, m2, m3,
      m4]
  · simp [GetGeneralStatus, hboot, intToBool]

/-- Instance of C13: mode 7 under the sample numbering, with a container that already held
a text and with a fresh one. -/
theorem GetGeneralStatus_unknown_mode_keeps_description_witness :
    (7 : Int) ∉ [sampleEnums.BootTareGyroAccel, sampleEnums.Temperature,
      sampleEnums.Magnetometer12Pt, sampleEnums.Magnetometer360,
      sampleEnums.Accelerometer] ∧
    (GetGeneralStatus sampleEnums
        ⟨sampleEnums.UserCalibration, 7, 12, 0, 21.5, 10, 4, 5, 0, 0⟩
        ⟨0, 0, 0, true, "old text", 0.0, 0, 0, 0, 9⟩).1.description = "old text" ∧
    (GetGeneralStatus sampleEnums
        ⟨sampleEnums.UserCalibration, 7, 12, 0, 21.5, 10, 4, 5, 0, 0⟩
        ⟨0, 0, 0, false, "", 0.0, 0, 0, 0, 0⟩).1.description = "" :=
  ⟨by decide,
    (GetGeneralStatus_unknown_mode_keeps_description sampleEnums
      ⟨sampleEnums.UserCalibration, 7, 12, 0, 21.5, 10, 4, 5, 0, 0⟩
      ⟨0, 0, 0, true, "old text", 0.0, 0, 0, 0, 9⟩ rfl rfl rfl (by decide)).1,
    (GetGeneralStatus_unknown_mode_keeps_description sampleEnums
      ⟨sampleEnums.UserCalibration, 7, 12, 0, 21.5, 10, 4, 5, 0, 0⟩
      ⟨0, 0, 0, false, "", 0.0, 0, 0, 0, 0⟩ rfl rfl rfl (by decide)).1⟩

/-! ## GetFaults and GetStickyFaults -/

/-- C14: `GetStickyFaults` performs the read `GetFaults` performs.  For every transport
state the bitmask it hands to the sticky-fault constructor and the error code it returns
are those of the live-fault read; with the same constructor the two functions give the same
result; and the answer a sticky-fault register would give has no influence. -/
theorem GetStickyFaults_reads_live_faults {F S : Type} (mkFaults : Int → F)
    (mkStickyFaults : Int → S) (handle : FaultTransport) (toFillF : F) (toFillS : S) :
    (GetStickyFaults mkStickyFaults handle toFillS).1 =
      mkStickyFaults (c_PigeonIMU_GetFaults handle).faultBits ∧
    (GetStickyFaults mkStickyFaults handle toFillS).2 =
      (c_PigeonIMU_GetFaults handle).retval ∧
    (GetStickyFaults mkStickyFaults handle toFillS).2 =
      (GetFaults mkFaults handle toFillF).2 ∧
    GetStickyFaults mkFaults handle toFillF = GetFaults mkFaults handle toFillF ∧
    (GetFaults mkFaults handle toFillF).1 = mkFaults handle.liveFaults.faultBits ∧
    (∀ sticky : FaultBitsFrame,
      GetStickyFaults mkStickyFaults ⟨handle.liveFaults, sticky⟩ toFillS =
        GetStickyFaults mkStickyFaults handle toFillS) :=
  ⟨rfl, rfl, rfl, rfl, rfl, fun _ => rfl⟩

/-! ## ToString -/

/-- C9: `ToString(PigeonState)` maps each of `Initializing`, `Ready`, `UserCalibration` and
`NoComm` to its own name; the four names are pairwise different, so a known state is
determined by its name; every other value maps to "Unknown"; and every value whatsoever maps
to one of these five strings. -/
theorem ToStringState_spec (E : EnumValues) (hE : E.StatesDistinct) :
    ToStringState E E.Initializing = "Initializing" ∧
    ToStringState E E.Ready = "Ready" ∧
    ToStringState E E.UserCalibration = "UserCalibration" ∧
    ToStringState E E.NoComm = "NoComm" ∧
    ["Initializing", "Ready", "UserCalibration", "NoComm"].Nodup ∧
    (∀ s t : Int, s ∈ [E.Initializing, E.Ready, E.UserCalibration, E.NoComm] →
      t ∈ [E.Initializing, E.Ready, E.UserCalibration, E.NoComm] →
      ToStringState E s = ToStringState E t → s = t) ∧
    (∀ s : Int, s ∉ [E.Initializing, E.Ready, E.UserCalibration, E.NoComm] →
      ToStringState E s = "Unknown") ∧
    (∀ s : Int, ToStringState E s ∈
      ["Initializing", "Ready", "UserCalibration", "NoComm", "Unknown"]) := by
  obtain ⟨k0, k1, k2, k3⟩ := ToStringState_known E hE
  refine ⟨k0, k1, k2, k3, by decide, ?_, ?_, ?_⟩
  · intro s t hs ht h
    simp only [List.mem_cons, List.mem_singleton, List.not_mem_nil, or_false] at hs ht
    rcases hs with rfl | rfl | rfl | rfl <;> rcases ht with rfl | rfl | rfl | rfl <;>
      first
        | rfl
        | (simp only [k0, k1, k2, k3] at h; exact absurd h (by decide))
  · intro s hs
    simp only [List.mem_cons, List.mem_singleton, List.not_mem_nil, or_false, not_or] at hs
    simp [ToStringState, hs.1, hs.2.1, hs.2.2.1, hs.2.2.2]
  · intro s
    unfold ToStringState
    split_ifs <;> simp

/-- Instance of C9: the sample numbering. -/
theorem ToStringState_spec_witness :
    sampleEnums.StatesDistinct ∧ ToStringState sampleEnums 2 = "Ready" ∧
    ToStringState sampleEnums 4 = "Unknown" :=
  ⟨by decide, (ToStringState_spec sampleEnums (by decide)).2.1,
    (ToStringState_spec sampleEnums (by decide)).2.2.2.2.2.2.1 4 (by decide)⟩

/-- C10: `ToString(CalibrationMode)` maps each of `BootTareGyroAccel`, `Temperature`,
`Magnetometer12Pt`, `Magnetometer360` and `Accelerometer` to its own name; the five names
are pairwise different; every other value maps to "Unknown", which is not
"BootTareGyroAccel". -/
theorem ToStringMode_spec (E : EnumValues) (hE : E.ModesDistinct) :
    ToStringMode E E.BootTareGyroAccel = "BootTareGyroAccel" ∧
    ToStringMode E E.Temperature = "Temperature" ∧
    ToStringMode E E.Magnetometer12Pt = "Magnetometer12Pt" ∧
    ToStringMode E E.Magnetometer360 = "Magnetometer360" ∧
    ToStringMode E E.Accelerometer = "Accelerometer" ∧
    ["BootTareGyroAccel", "Temperature", "Magnetometer12Pt", "Magnetometer360",
      "Accelerometer"].Nodup ∧
    (∀ cm : Int, cm ∉ [E.BootTareGyroAccel, E.Temperature, E.Magnetometer12Pt,
        E.Magnetometer360, E.Accelerometer] →
      ToStringMode E cm = "Unknown" ∧ ToStringMode E cm ≠ "BootTareGyroAccel") := by
  obtain ⟨k0, k1, k2, k3, k4⟩ := ToStringMode_known E hE
  refine ⟨k0, k1, k2, k3, k4, by decide, ?_⟩
  intro cm hcm
  simp only [List.mem_cons, List.mem_singleton, List.not_mem_nil, or_false, not_or] at hcm
  have hu : ToStringMode E cm = "Unknown" := by
    simp [ToStringMode, hcm.1, hcm.2.1, hcm.2.2.1, hcm.2.2.2.1, hcm.2.2.2.2]
  exact ⟨hu, by rw [hu]; decide⟩

/-- Instance of C10: the sample numbering, whose unlisted value 4 maps to "Unknown". -/
theorem ToStringMode_spec_witness :
    sampleEnums.ModesDistinct ∧ ToStringMode sampleEnums 3 = "Magnetometer360" ∧
    ToStringMode sampleEnums 4 = "Unknown" :=
  ⟨by decide, (ToStringMode_spec sampleEnums (by decide)).2.2.2.1,
    ((ToStringMode_spec sampleEnums (by decide)).2.2.2.2.2.2 4 (by decide)).1⟩

end PigeonIMU
